import Mathlib

/-!
Verification development for the nga-db reconciliation scripts.

The Python sources (genusCheck.py, checkRHS.py, nga/NGA.py, nga/COL.py,
nga/KEW.py) are shallowly embedded below.  Python strings are modelled as
`String` operated on through `List Char`; Python dictionaries keyed by
strings are association lists; a Python runtime error (KeyError,
TypeError, IndexError) is modelled by an `Option`-valued function
returning `none`.  Remote collaborators (COL / KEW / NGA web lookups,
the RHS register) are oracle parameters.  Python float literals used as
similarity thresholds are modelled as rationals with the same decimal
value.  ASCII case folding stands in for `str.lower`.
-/

namespace NgaDb

/-- Python `<` on strings: lexicographic comparison by code point. -/
def pyStrLtChars : List Char → List Char → Bool
  | [], [] => false
  | [], _ :: _ => true
  | _ :: _, [] => false
  | a :: as, b :: bs =>
    if a.val < b.val then true
    else if b.val < a.val then false
    else pyStrLtChars as bs

/-- Python `<` on strings. -/
def pyStrLt (a b : String) : Bool := pyStrLtChars a.data b.data

/-- Python `<=` on strings. -/
def pyStrLe (a b : String) : Bool := !(pyStrLtChars b.data a.data)

/-- Python `min` of two strings: the first argument when it compares `<=`. -/
def pyStrMin (a b : String) : String := if pyStrLe a b then a else b

/-- Python `str.replace(old, new)` on character lists: replaces all
non-overlapping occurrences left to right.  The fuel argument only bounds
the recursion (the string length plus one always suffices, since every
step consumes at least one character); an empty `old` is never used by
the embedded code and leaves the string unchanged here. -/
def pyReplaceChars (old new : List Char) : Nat → List Char → List Char
  | _, [] => []
  | 0, s => s
  | fuel+1, c :: rest =>
    if old ≠ [] ∧ old.isPrefixOf (c :: rest) then
      new ++ pyReplaceChars old new fuel ((c :: rest).drop old.length)
    else
      c :: pyReplaceChars old new fuel rest

/-- Python `str.replace(old, new)`. -/
def pyReplace (s old new : String) : String :=
  ⟨pyReplaceChars old.data new.data (s.data.length + 1) s.data⟩

/-- Python substring containment `needle in hay` on character lists. -/
def containsSubChars (hay needle : List Char) : Bool :=
  if needle.isPrefixOf hay then true
  else
    match hay with
    | [] => false
    | _ :: t => containsSubChars t needle

/-- Python substring containment `needle in hay`. -/
def pyContains (hay needle : String) : Bool :=
  containsSubChars hay.data needle.data

/-- Python `str.split()` with no argument: split on whitespace runs,
dropping empty fields. -/
def splitWsChars : List Char → List (List Char)
  | [] => []
  | c :: rest =>
    if c.isWhitespace then splitWsChars rest
    else
      match splitWsChars rest with
      | [] => [[c]]
      | w :: ws =>
        match rest with
        | [] => [[c]]
        | r :: _ => if r.isWhitespace then [c] :: w :: ws else (c :: w) :: ws

/-- Python `str.split()` returning strings. -/
def pySplitWs (s : String) : List String :=
  (splitWsChars s.data).map (fun w => ⟨w⟩)

/-- Strip leading and trailing whitespace (Python `str.strip()`). -/
def stripWsChars (s : List Char) : List Char :=
  ((s.dropWhile Char.isWhitespace).reverse.dropWhile Char.isWhitespace).reverse

/-- Python `str.strip()`. -/
def pyStrip (s : String) : String := ⟨stripWsChars s.data⟩

/-- Python `str.strip(c)` for a single strip character: removes every
copy of that character from both ends. -/
def pyStripChar (s : List Char) (c : Char) : List Char :=
  ((s.dropWhile (· = c)).reverse.dropWhile (· = c)).reverse

/-- ASCII lower-casing standing in for Python `str.lower()`. -/
def pyLower (s : String) : String := ⟨s.data.map Char.toLower⟩

/-- Python `str.lower().strip()` as used by `checkHybStatus`. -/
def lowerStrip (s : String) : String := pyStrip (pyLower s)

/-! ## Data model

A plant entry dictionary, as produced by `NGA._generatePlantObject` and
mutated by `genusCheck.py`.  Keys that the scripts add only during a run
are `Option` fields whose `none` value means the key is absent; keys the
constructor always writes (`full_name`, `url`, `pid`, `common_name`,
`warning`) are plain fields.  `parentage_exists` stores the value of
`NGA.checkParentageField`, itself `True`/`False`/`None`, hence the nested
option. -/

structure PlantRecord where
  full_name : String
  url : Option String
  pid : Option String
  common_name : Bool
  warning : Bool
  warning_desc : Option String := none
  changed : Option Bool := none
  new_bot_name : Option String := none
  rename : Option Bool := none
  duplicate : Option Bool := none
  accepted : Option Bool := none
  nat_hyb : Option Bool := none
  parentage : Option String := none
  parentage_exists : Option (Option Bool) := none
  possible_hybrid : Option Bool := none
  not_nat_hybrid : Option Bool := none
  deriving DecidableEq, Repr

/-- Truthiness of an optional boolean dictionary entry: Python treats a
missing key guarded by `'k' in d and d['k']`, or a stored `None`, as
false. -/
def optTruthy (o : Option Bool) : Bool := o.getD false

/-- Cultivar dictionary of one botanical name: selection name → record.
The empty selection name denotes the species/type entry. -/
abbrev Cultivars := List (String × PlantRecord)

/-- The NGA dataset: botanical name → cultivar dictionary. -/
abbrev Dataset := List (String × Cultivars)

/-- Association-list lookup (Python `d[k]` / `k in d`). -/
def lookupA (m : List (String × α)) (k : String) : Option α :=
  match m with
  | [] => none
  | (k', v) :: rest => if k' = k then some v else lookupA rest k

/-- Association-list update of an existing key, or append of a new one
(Python `d[k] = v`). -/
def setA (m : List (String × α)) (k : String) (v : α) : List (String × α) :=
  match m with
  | [] => [(k, v)]
  | (k', v') :: rest => if k' = k then (k, v) :: rest else (k', v') :: setA rest k v

/-- Lookup of one cultivar record: `dataset[bname][cultivar]`. -/
def lookupCult (d : Dataset) (bname cultivar : String) : Option PlantRecord :=
  (lookupA d bname).bind (fun cs => lookupA cs cultivar)

/-- Python `for cultivar in d[k]: d[k][cultivar] = f(...)`: update every
record under key `k`; `none` models the KeyError raised when `k` is
absent. -/
def updateAllCultivars (d : Dataset) (k : String)
    (f : String → PlantRecord → PlantRecord) : Option Dataset :=
  match lookupA d k with
  | none => none
  | some cs => some (setA d k (cs.map (fun p => (p.1, f p.1 p.2))))

/-- Python `for cultivar in d[src]: d[dst][cultivar] = f(...)`: iterate
the cultivar keys of `src` but write into `dst` (as the misapplied /
unknown-status branches of `checkBotanicalEntries` do); `none` models a
KeyError on either key. -/
def updateCrossed (d : Dataset) (src dst : String)
    (f : PlantRecord → PlantRecord) : Option Dataset :=
  match lookupA d src with
  | none => none
  | some cs =>
    cs.foldlM (fun acc p =>
      match lookupA acc dst with
      | none => none
      | some cs' =>
        match lookupA cs' p.1 with
        | none => none
        | some r => some (setA acc dst (setA cs' p.1 (f r)))) d

/-- Extract the plant id from a URL: the first `/`-digits-`/` group, as
matched by the regex in `NGA._generatePlantObject`. -/
def extractPidChars : List Char → Option (List Char)
  | [] => none
  | '/' :: rest =>
    let ds := rest.takeWhile Char.isDigit
    if ds ≠ [] ∧ (rest.drop ds.length).head? = some '/' then some ds
    else extractPidChars rest
  | _ :: rest => extractPidChars rest

/-- Embedding of `NGA._generatePlantObject` (NGA.py 1049-1060): builds the
default plant dictionary; the plant id stays a string extracted from the
URL. -/
def generatePlantObject (name : String) (url : Option String) : PlantRecord :=
  { full_name := pyReplace name "  " " "
    url := url
    pid := url.bind (fun u => (extractPidChars u.data).map (fun ds => (⟨ds⟩ : String)))
    common_name := false
    warning := false }

/-- Embedding of genusCheck.py 201-203: the per-name reset writing the
`changed` and `warning` defaults before classification. -/
def resetEntry (r : PlantRecord) : PlantRecord :=
  { r with changed := some false, warning := false }

/-- Python `distribution is not None and distribution != ''`
(genusCheck.py 141 and 149). -/
def distPresent : Option String → Bool
  | none => false
  | some d => d ≠ ""

/-- Embedding of the nested `checkHybStatus` (genusCheck.py 127-151):
derive `(col_hyb, col_hyb_q, nat_hyb)` from the notho field, the remarks
text and the distribution. -/
def checkHybStatus (notho_text description : String)
    (distribution : Option String) : Bool × Bool × Bool :=
  let nt := lowerStrip notho_text
  let descr := lowerStrip description
  if nt.data.length > 0 then
    (true, false, distPresent distribution)
  else if pyContains descr "hybrid" || pyContains descr "hyrbrid" then
    (true, pyContains descr "?", distPresent distribution)
  else
    (false, false, false)

/-! ## Synonym resolution -/

/-- Result of `COL.search` without synonyms (COL.py 72-186): an accepted
name, or `none` together with a diagnostic message. -/
structure ColReply where
  retname : Option String
  msg : Option String
  deriving DecidableEq, Repr

/-- Result of `checkSynonym`: the possibly-grown dataset plus the returned
triple `(retname, msg, duplicate)`. -/
structure SynResult where
  dataset : Dataset
  retname : Option String
  msg : Option String
  duplicate : Bool
  deriving DecidableEq, Repr

/-- Embedding of `checkSynonym` (genusCheck.py 57-121).  `colSearch` and
`ngaSearch` are the remote collaborators; `none` as a result models a
Python runtime error (IndexError on an empty returned name, KeyError on
a missing working name). -/
def checkSynonym (colSearch : String → ColReply)
    (ngaSearch : String → Option Dataset)
    (nga_dataset : Dataset) (search_term working_genus : String)
    (working_name0 : Option String) (nga_hyb_status0 : Option Bool) :
    Option SynResult :=
  let nga_hyb_status := nga_hyb_status0.getD (pyContains search_term " x ")
  let working_name := working_name0.getD search_term
  let col_search_term := pyReplace search_term " x " " × "
  let results := colSearch col_search_term
  let msg := results.msg
  match results.retname with
  | none => some ⟨nga_dataset, none, msg, false⟩
  | some retname =>
    if (¬ (retname = search_term ∨ retname = col_search_term)) ∨
        retname ≠ working_name then
      match pySplitWs retname with
      | [] => none
      | retgenus :: _ =>
        let ret_fields_len := (pySplitWs retname).length
        let params_st := (pySplitWs search_term).length
        let step :=
          if retgenus ≠ working_genus then
            let nga_formatted_name := pyReplace retname " × " " x "
            match ngaSearch nga_formatted_name with
            | none => (nga_dataset, false)
            | some nga_matches =>
              match lookupA nga_matches nga_formatted_name with
              | some cs =>
                if (lookupA nga_dataset nga_formatted_name).isNone then
                  (setA nga_dataset nga_formatted_name cs, true)
                else (nga_dataset, true)
              | none => (nga_dataset, true)
          else (nga_dataset, false)
        let d1 := step.1
        let duplicate := step.2
        if ret_fields_len > params_st ∧ pyContains retname search_term then
          some ⟨d1, some retname, msg, duplicate⟩
        else
          match updateAllCultivars d1 working_name (fun cultivar r =>
              let dup : Bool := (lookupA d1 retname).isSome ∧
                ((lookupA d1 retname).bind (fun cs => lookupA cs cultivar)).isSome
              let r := { r with new_bot_name := some retname,
                                changed := some true,
                                duplicate := some dup }
              if nga_hyb_status then
                { r with warning := true,
                         warning_desc :=
                           some "NGA-listed natural hybrid is now a synonym" }
              else r) with
          | none => none
          | some d2 => some ⟨d2, some retname, msg, duplicate⟩
    else
      some ⟨nga_dataset, some retname, msg, false⟩

/-! ## Fuzzy spelling match -/

/-- Positionwise character differences, Python
`sum(1 for a, b in zip(closest_match, search_name) if a != b)`
(genusCheck.py 478). -/
def zipDiffs : List Char → List Char → Nat
  | a :: as, b :: bs => (if a ≠ b then 1 else 0) + zipDiffs as bs
  | _, _ => 0

/-- Short-name exception of genusCheck.py 479: similarity above 0.8 with
fewer than two positionwise differences and a length difference below
three.  The similarity ratio is abstracted as a rational. -/
def gender_change (last_ratio : ℚ) (closest_match search_name : String) : Bool :=
  decide (last_ratio > 8/10) &&
  decide (zipDiffs closest_match.data search_name.data < 2) &&
  decide (((closest_match.data.length : ℤ) - search_name.data.length).natAbs < 3)

/-- Acceptance test of the fuzzy-match fallback, exactly as written at
genusCheck.py 482: `((last_ratio > 0.9) or gender_change) and
(closest_match != search_name)`. -/
def fuzzyAccept (last_ratio : ℚ) (closest_match search_name : String) : Bool :=
  (decide (last_ratio > 9/10) || gender_change last_ratio closest_match search_name) &&
  decide (closest_match ≠ search_name)

/-- The same acceptance test transcribed from the specification text: the
candidate differs from the search name, and either the ratio exceeds
0.90, or it exceeds 0.80 with fewer than 2 positionwise character
differences and an absolute length difference smaller than 3. -/
def fuzzyAcceptSpec (ratio : ℚ) (candidate search_name : String) : Bool :=
  decide (candidate ≠ search_name) &&
  (decide (ratio > 9/10) ||
    (decide (ratio > 8/10) &&
     decide (zipDiffs candidate.data search_name.data < 2) &&
     decide (((candidate.data.length : ℤ) - search_name.data.length).natAbs < 3)))

/-! ## Status classifier -/

/-- Result of `KEW.WCSP.nameSearch`; `parentage` stands for the formula
string of the parentage dictionary. -/
structure KewResult where
  name : String
  status : Option String
  distribution : Option String
  hybrid : Bool
  parentage : Option String
  deriving DecidableEq, Repr

/-- Remote collaborators used by `checkBotanicalEntries`. -/
structure Oracles where
  colSearch : String → ColReply
  ngaSearch : String → Option Dataset
  kewSearch : String → KewResult
  checkParentage : PlantRecord → Option Bool

/-- One row returned by the DCA SQLite query: taxonomicStatus, locality,
taxonRemarks, notho (genusCheck.py 253-257). -/
structure RefRow where
  status : String
  distribution : Option String
  description : String
  notho : String
  deriving DecidableEq, Repr

/-- Append a name unless already present, the
`if n not in updated_names: updated_names.append(n)` idiom. -/
def appendIfAbsent (l : List String) (s : String) : List String :=
  if s ∈ l then l else l ++ [s]

/-- Removal of the first `"x"` element, Python `fields.remove('x')`. -/
def removeFirstX : List String → List String
  | [] => []
  | f :: rest => if f = "x" then rest else f :: removeFirstX rest

/-- Split of the full name with removal of the first `x` token
(genusCheck.py 212-216); the boolean is `nga_hyb`. -/
def nameFields (full_name : String) : List String × Bool :=
  let fields := pySplitWs full_name
  if "x" ∈ fields then (removeFirstX fields, true) else (fields, false)

/-- Embedding of the accepted-status branch of `checkBotanicalEntries`
(genusCheck.py 262-361), including the orchid-extension sub-branches with
KEW and parentage lookups as oracles. -/
def processAccepted (O : Oracles) (genus full_name : String)
    (entries : List String)
    (nga_hyb col_hyb col_hyb_q nat_hyb hybrid_genus orchid_extensions : Bool)
    (dataset : Dataset) (updated_names : List String) :
    Option (Dataset × List String) :=
  let non_hyb_name := pyReplace full_name " x " " "
  let step : Option (Dataset × List String) :=
    if col_hyb then
      if nat_hyb ∧ ¬ col_hyb_q then
        let hybrid_status := ¬ nga_hyb ∧ ¬ hybrid_genus
        let hyb_name := pyReplace full_name genus (genus ++ " x")
        let dup := hyb_name ∈ entries
        let updated1 := if hybrid_status then appendIfAbsent updated_names hyb_name
                        else updated_names
        let kew_result := O.kewSearch non_hyb_name
        (updateAllCultivars dataset full_name (fun _ r =>
          let r := { r with nat_hyb := some true,
                            changed := some hybrid_status,
                            rename := some hybrid_status }
          let r := if hybrid_status then
                     { r with new_bot_name := some hyb_name, duplicate := some dup }
                   else r
          let pe := O.checkParentage r
          let r := { r with parentage_exists := some pe }
          if orchid_extensions ∧ ¬ optTruthy pe then
            match kew_result.parentage with
            | some p => { r with parentage := some p }
            | none => r
          else r)).map (fun d => (d, updated1))
      else if col_hyb_q then
        (updateAllCultivars dataset full_name (fun _ r =>
          { r with possible_hybrid := some true })).map (fun d => (d, updated_names))
      else
        if orchid_extensions then
          let kew_result := O.kewSearch non_hyb_name
          if kew_result.distribution.isSome then
            if ¬ nga_hyb then
              if hybrid_genus then
                (updateAllCultivars dataset full_name (fun _ r =>
                  let r := { r with nat_hyb := some true }
                  let pe := O.checkParentage r
                  let r := { r with parentage_exists := some pe }
                  if ¬ optTruthy pe ∧ kew_result.parentage.isSome then
                    { r with parentage := kew_result.parentage }
                  else r)).map (fun d => (d, updated_names))
              else
                let hyb_name := pyReplace full_name genus (genus ++ " x")
                (updateAllCultivars dataset full_name (fun _ r =>
                  let r := { r with new_bot_name := some hyb_name,
                                    changed := some true,
                                    rename := some true,
                                    duplicate := some (hyb_name ∈ entries),
                                    nat_hyb := some true }
                  let pe := O.checkParentage r
                  let r := { r with parentage_exists := some pe }
                  if ¬ optTruthy pe ∧ kew_result.parentage.isSome then
                    { r with parentage := kew_result.parentage }
                  else r)).map (fun d => (d, appendIfAbsent updated_names hyb_name))
            else
              some (dataset, updated_names)
          else
            (updateAllCultivars dataset full_name (fun _ r =>
              { r with not_nat_hybrid := some (¬ hybrid_genus) })).map
              (fun d => (d, updated_names))
        else
          (updateAllCultivars dataset full_name (fun _ r =>
            { r with not_nat_hybrid := some (¬ hybrid_genus) })).map
            (fun d => (d, updated_names))
    else if nga_hyb then
      (updateAllCultivars dataset full_name (fun _ r =>
        { r with new_bot_name := some non_hyb_name,
                 rename := some true,
                 changed := some true,
                 warning := true,
                 warning_desc := some "COL does not list this as a hybrid" })).map
        (fun d => (d, appendIfAbsent updated_names non_hyb_name))
    else
      some (dataset, updated_names)
  match step with
  | none => none
  | some (d1, u1) =>
    (updateAllCultivars d1 full_name (fun _ r =>
      { r with accepted := some true })).map (fun d => (d, u1))

/-- Embedding of the status dispatch of `checkBotanicalEntries` for a
non-empty query result (genusCheck.py 253-389): accepted, misapplied or
ambiguous, synonym (delegated to `checkSynonym`), and unknown status. -/
def classifyRow (O : Oracles) (genus botanical_name full_name : String)
    (nga_hyb hybrid_genus orchid_extensions : Bool) (entries : List String)
    (row : RefRow) (dataset : Dataset) (updated_names : List String) :
    Option (Dataset × List String) :=
  let status := pyLower row.status
  let hs := checkHybStatus row.notho row.description row.distribution
  if pyContains status "accepted" then
    processAccepted O genus full_name entries nga_hyb hs.1 hs.2.1 hs.2.2
      hybrid_genus orchid_extensions dataset updated_names
  else if pyContains status "misapplied" || pyContains status "ambiguous" then
    (updateCrossed dataset full_name botanical_name (fun r =>
      { r with warning := true,
               warning_desc := some "Misapplied or ambiguous name" })).map
      (fun d => (d, updated_names))
  else if pyContains status "synonym" then
    match checkSynonym O.colSearch O.ngaSearch dataset full_name genus
        none (some nga_hyb) with
    | none => none
    | some res =>
      match res.retname with
      | some nb =>
        some (res.dataset,
          if ¬ res.duplicate ∧ nb ∉ updated_names then updated_names ++ [nb]
          else updated_names)
      | none => some (res.dataset, updated_names)
  else
    (updateCrossed dataset full_name botanical_name (fun r =>
      { r with warning := true,
               warning_desc := some ("Unknown taxonomic status: " ++ status) })).map
      (fun d => (d, updated_names))

/-! ## Reassignment and merge planner -/

/-- Survivor selection for a reassignment group whose target name is
missing from the catalog (genusCheck.py 923-933): per selection name,
keep the entry whose pid string compares `<` in Python string order.
`none` models comparing a missing pid (TypeError) or a missing botanical
name (KeyError). -/
def selectLowestPids (nga_dataset : Dataset) (reassigned : List String) :
    Option (List (String × PlantRecord)) :=
  reassigned.foldlM (fun low botanical_name =>
    match lookupA nga_dataset botanical_name with
    | none => none
    | some cultivars =>
      cultivars.foldlM (fun low2 p =>
        let selection_name := p.1
        let selection_entry := p.2
        match lookupA low2 selection_name with
        | none => some (setA low2 selection_name selection_entry)
        | some cur =>
          match selection_entry.pid, cur.pid with
          | some p1, some p2 =>
            if pyStrLt p1 p2 then some (setA low2 selection_name selection_entry)
            else some low2
          | _, _ => none) low) []

/-- One entry of the `merges` lists built at genusCheck.py 963 and 1016:
old record, new record, the migrated botanical and common names, and the
stored (but never re-read) `pids_reversed` flag. -/
structure MergeEntry where
  old : PlantRecord
  new : PlantRecord
  lnames : List String
  cnames : List String
  pids_reversed : Bool
  deriving DecidableEq, Repr

/-- A submitted merge, identified by the surviving and retired pids. -/
structure MergeProposal where
  survivor_pid : String
  casualty_pid : String
  deriving DecidableEq, Repr

/-- Embedding of `NGA.proposeMerge` (NGA.py 1009-1046) reduced to which
plant survives: with `reverse_order` the new plant is merged into the old
one, otherwise the old into the new.  `collab` is the result of the
preliminary `proposeNameChange` / `proposeSynonymAddition` collaborator
call (made only on the paths that need it); a falsy result, a shared pid
or a missing pid means no merge is submitted. -/
def proposeMergeOutcome (old_plant new_plant : PlantRecord)
    (reverse_order : Bool) (collab : Option Bool) : Option MergeProposal :=
  let name_update : Option Bool :=
    if reverse_order then collab
    else if ¬ optTruthy old_plant.rename then collab
    else some true
  if optTruthy name_update then
    match old_plant.pid, new_plant.pid with
    | some op, some np =>
      if np = op then none
      else if reverse_order then some ⟨op, np⟩
      else some ⟨np, op⟩
    | _, _ => none
  else none

/-- The planner's call sites at genusCheck.py 1054, 1063 and 1076 pass the
entry's `lnames` and `cnames` positionally, so `lnames` lands in the
`common_names` parameter and `cnames` in `reverse_order`, whose
truthiness is non-emptiness of the list. -/
def proposeMergeCall (e : MergeEntry) (collab : Option Bool) :
    Option MergeProposal :=
  proposeMergeOutcome e.old e.new (!e.cnames.isEmpty) collab

/-- Pair handling for a reassignment target that already exists
(genusCheck.py 995-1016): compare pid strings, run the page-fields check
on one side, and either flag a manual merge or build a `MergeEntry`.  The
collaborator result is the key-to-values dictionary that
`NGA.checkPageFields` builds (`cards`, `databoxes`, `common_names`), or
`none` on a failed retrieval.  The result is `some (manual, entry?)`;
`none` models a runtime error (missing pid, or the KeyError raised by the
`datafields['botanical_names']` access, a key `checkPageFields` never
provides). -/
def pairMerge (selection_entry cultivar_entry : PlantRecord)
    (checkFields : PlantRecord → Option (List (String × List String))) :
    Option (Bool × Option MergeEntry) := do
  let selection_pid ← selection_entry.pid
  let cultivar_pid ← cultivar_entry.pid
  let pids_reversed := pyStrLt selection_pid cultivar_pid
  let datafields :=
    if pids_reversed then checkFields cultivar_entry
    else checkFields selection_entry
  match datafields with
  | none => some (true, none)
  | some df =>
    match lookupA df "cards", lookupA df "databoxes" with
    | some cards, some databoxes =>
      if cards.length > 0 ∨ databoxes.length > 0 then some (true, none)
      else
        match lookupA df "botanical_names", lookupA df "common_names" with
        | some ln, some cn =>
          some (false, some ⟨selection_entry, cultivar_entry, ln, cn, pids_reversed⟩)
        | _, _ => none
    | _, _ => none

/-- Record used as the first-merge pick of the N-way branch
(genusCheck.py 1026-1045): lowest pid seen, the merge pair holding it,
and the `new_target` every later step is pointed at. -/
def selectFirstMerge (pid : String) (merge : List MergeEntry) :
    Option (String × Option MergeEntry × Option PlantRecord) :=
  merge.foldlM (fun acc entry => do
    let lowest_pid := acc.1
    let old_pid ← entry.old.pid
    let new_pid ← entry.new.pid
    let low_pid := pyStrMin old_pid new_pid
    if pyStrLe low_pid lowest_pid then
      some (low_pid, some entry,
        some (if pyStrLt old_pid new_pid then entry.old else entry.new))
    else some acc) (pid, none, none)

/-! ## Remote-lookup retry behaviour

`net n` is the outcome of the n-th physical attempt of a lookup: `none`
is a transient `requests.exceptions.RequestException`, `some r` a parsed
response. -/

/-- The `recursed=True` invocation of `NGA.search` (NGA.py 364-379): the
second physical attempt is made and a further transient failure returns
`None` — which is exactly the second attempt's outcome. -/
def ngaSearchRecursed (net : Nat → Option α) : Option α := net 1

/-- Embedding of the retry skeleton of `NGA.search`: on a transient
failure with `recursed=False` the method sleeps and re-invokes itself
once with `recursed=True`. -/
def ngaSearchAttempt (net : Nat → Option α) : Bool → Option α
  | true => ngaSearchRecursed net
  | false =>
    match net 0 with
    | some r => some r
    | none => ngaSearchRecursed net

/-- `NGA.search` as invoked by callers (`recursed` defaulted to False). -/
def ngaSearch (net : Nat → Option α) : Option α :=
  ngaSearchAttempt net false

/-- Embedding of the request step of `COL.search` (COL.py 79-89): a
transient failure immediately yields `[None, 'Error retrieving taxon']`
with no retry. -/
def colSearchAttempt (net : Nat → Option ColReply) : ColReply :=
  match net 0 with
  | none => ⟨none, some "Error retrieving taxon"⟩
  | some reply => reply

/-- Embedding of the request step of `KEW.WCSP.nameSearch` (KEW.py
139-146): a transient failure immediately returns the default result
dictionary, with no retry. -/
def kewSearchAttempt (net : Nat → Option KewResult) (synonym : String) :
    KewResult :=
  match net 0 with
  | none => { name := synonym, status := none, distribution := none,
              hybrid := false, parentage := none }
  | some r => r

/-! ## Name normalizer of checkRHS.py

The regular expressions of `extractName` are translated into explicit
leftmost-match scanners; `\w` is modelled as ASCII alphanumeric or
underscore, and names are assumed newline-free (`.` matches any
character here). -/

/-- Python `\w` word character (ASCII fragment). -/
def isWordChar (c : Char) : Bool := c.isAlphanum || c = '_'

/-- The single-quote character, written via its code point. -/
def quoteChar : Char := Char.ofNat 39

/-- Step 1 of `extractName` (checkRHS.py 52-55): strip an abbreviated
genus prefix matching `^\w{1,5}\.`; returns the matched prefix (or the
empty string) and the remaining text, stripped on a match. -/
def stripGenusAbbrev (s : List Char) : String × List Char :=
  let r := (s.takeWhile isWordChar).length
  if 1 ≤ r ∧ r ≤ 5 ∧ (s.drop r).head? = some '.' then
    (⟨s.take (r+1)⟩, stripWsChars (s.drop (r+1)))
  else ("", s)

/-- Completion points of a ploidy match starting at `i`: positions `j`
with a digit at `j`, `n` at `j+1` and a closing parenthesis at `j+2`. -/
def ploidyEnds (s : List Char) (i : Nat) : List Nat :=
  (List.range s.length).filter (fun j =>
    i + 1 ≤ j ∧ (s.get? j).elim false Char.isDigit ∧
    s.get? (j+1) = some 'n' ∧ s.get? (j+2) = some ')')

/-- Leftmost, greedy match of the ploidy pattern `\(.*\dn\)`
(checkRHS.py 58). -/
def findPloidyMatch (s : List Char) : Option (List Char) :=
  match (List.range s.length).filter (fun i =>
      s.get? i = some '(' ∧ ploidyEnds s i ≠ []) with
  | [] => none
  | i :: _ =>
    match (ploidyEnds s i).getLast? with
    | some j => some ((s.drop i).take (j + 3 - i))
    | none => none

/-- Leftmost match of the numbered-selection pattern ` #\d+?`
(checkRHS.py 64): the lazy quantifier matches exactly one digit. -/
def findNumberedSel (s : List Char) : Option (List Char) :=
  match (List.range s.length).filter (fun i =>
      s.get? i = some ' ' ∧ s.get? (i+1) = some '#' ∧
      (s.get? (i+2)).elim false Char.isDigit) with
  | [] => none
  | i :: _ => some ((s.drop i).take 3)

/-- Leftmost match of the named-selection pattern ` \x27.+\x27$`
(checkRHS.py 70): a space and a quote, at least one character, and a
quote as the final character of the string. -/
def findNamedSel (s : List Char) : Option (List Char) :=
  if s.getLast? = some quoteChar then
    match (List.range s.length).filter (fun i =>
        i + 4 ≤ s.length ∧ s.get? i = some ' ' ∧
        s.get? (i+1) = some quoteChar) with
    | [] => none
    | i :: _ => some (s.drop i)
  else none

/-- Leftmost, greedy match of the form pattern ` f. \w+` with IGNORECASE
(checkRHS.py 76); the unescaped dot matches any character. -/
def findFormSuffix (s : List Char) : Option (List Char) :=
  match (List.range s.length).filter (fun i =>
      s.get? i = some ' ' ∧ ((s.get? (i+1)).elim false (fun c => c.toLower = 'f')) ∧
      (s.get? (i+2)).isSome ∧ s.get? (i+3) = some ' ' ∧
      (s.get? (i+4)).elim false isWordChar) with
  | [] => none
  | i :: _ =>
    let run := ((s.drop (i+4)).takeWhile isWordChar).length
    some ((s.drop i).take (4 + run))

/-- Removal of a matched text followed by the `.replace('  ',' ').strip()`
cleanup applied inside each removal branch. -/
def cleanupAfterRemoval (m s : List Char) : List Char :=
  let s1 := pyReplaceChars m [] (s.length + 1) s
  stripWsChars (pyReplaceChars [' ', ' '] [' '] (s1.length + 1) s1)

/-- Python `re.findall(r' x ', plant, flags=re.IGNORECASE)`, fuelled: the
list of non-overlapping matched texts, scanning left to right (the string
length plus one is always enough fuel). -/
def hybScanFuel : Nat → List Char → List (List Char)
  | 0, _ => []
  | fuel+1, s =>
    match s with
    | ' ' :: c :: ' ' :: rest =>
      if c = 'x' ∨ c = 'X' then [' ', c, ' '] :: hybScanFuel fuel rest
      else hybScanFuel fuel (c :: ' ' :: rest)
    | _ :: rest => hybScanFuel fuel rest
    | [] => []

/-- Python `re.findall(r' x ', plant, flags=re.IGNORECASE)`. -/
def hybScan (s : List Char) : List (List Char) :=
  hybScanFuel (s.length + 1) s

/-- Leftmost index of `sep` in `s` (for a non-empty `sep`). -/
def findSubIdx : List Char → List Char → Option Nat
  | [], sep => if sep = [] then some 0 else none
  | s@(_ :: t), sep =>
    if sep.isPrefixOf s then some 0 else (findSubIdx t sep).map (· + 1)

/-- Python `str.split(sep)` for a non-empty separator; `fuel` bounds the
number of splits (the string length suffices). -/
def pySplitOnChars : Nat → List Char → List Char → List (List Char)
  | 0, s, _ => [s]
  | fuel+1, s, sep =>
    match findSubIdx s sep with
    | none => [s]
    | some i => s.take i :: pySplitOnChars fuel (s.drop (i + sep.length)) sep

/-- Steps 1-5 of `extractName` (checkRHS.py 50-79): genus prefix, ploidy,
numbered selection, named selection and form removal, in source order,
returning the extracted genus and the remaining plant text. -/
def normalizePlant (plant0 : String) : String × String :=
  let gp := stripGenusAbbrev plant0.data
  let p1 := gp.2
  let p2 := match findPloidyMatch p1 with
    | none => p1
    | some m => cleanupAfterRemoval m p1
  let p3 := match findNumberedSel p2 with
    | none => p2
    | some m => cleanupAfterRemoval m p2
  let p4 := match findNamedSel p3 with
    | none => p3
    | some m => cleanupAfterRemoval m p3
  let p5 := match findFormSuffix p4 with
    | none => p4
    | some m => cleanupAfterRemoval m p4
  (gp.1, ⟨p5⟩)

/-- Structured output of `extractName` (checkRHS.py 96). -/
structure ExtractResult where
  registered : Bool
  genus : Option String
  grex : Option String
  deriving DecidableEq, Repr

/-- The `matched` field of the dictionary `RHS.searchParentage` returns;
the other fields are not consumed by the embedded callers. -/
structure RegResult where
  matched : Bool
  deriving DecidableEq, Repr

/-- The RHS register collaborator: pod genus, pod grex, pollen genus,
pollen grex ↦ the parentage search result, `none` being a failed
retrieval (whose subsequent subscripting crashes). -/
abbrev RhsOracle := String → String → String → String → Option RegResult

/-- Embedding of `genusName` (checkRHS.py 30-36). -/
def genusName (g : String) : String :=
  if g = "Cym." then "Cymbidium" else g

/-- Tail of `checkRegistration` (checkRHS.py 105-113) after the two
`extractName` calls: consult the register only when both parents are
registered. -/
def checkRegistrationAux (oracle : RhsOracle) (pod pol : ExtractResult) :
    Option RegResult :=
  if pod.registered ∧ pol.registered then
    match pod.genus, pod.grex, pol.genus, pol.grex with
    | some pg, some pgx, some lg, some lgx =>
      oracle (genusName pg) pgx (genusName lg) lgx
    | _, _, _, _ => none
  else some ⟨false⟩

/-- Embedding of `extractName` (checkRHS.py 39-96).  A `none` input is
the `np.nan` case.  `fuel` bounds the mutual recursion with
`checkRegistration`, whose body is inlined at the single-conjunction
branch; `none` as a result models a Python runtime error — fuel
exhaustion, a failed register retrieval, or the `reg['epithet']`
subscript of a boolean that the source performs whenever the register
reports a match. -/
def extractName (oracle : RhsOracle) : Nat → Option String → Option ExtractResult
  | _, none => some ⟨false, none, none⟩
  | 0, some _ => none
  | fuel+1, some plant0 =>
    let gp := normalizePlant plant0
    let genus := gp.1
    let plant := gp.2
    match hybScan plant.data with
    | [] => some ⟨true, some genus, some plant⟩
    | tok :: rest =>
      if rest ≠ [] then some ⟨false, some genus, some plant⟩
      else
        match pySplitOnChars (plant.data.length + 1)
            (pyStripChar (pyStripChar plant.data '(') ')') tok with
        | p0 :: p1 :: _ =>
          match extractName oracle fuel (some (genus ++ " " ++ (⟨p0⟩ : String))),
                extractName oracle fuel (some (genus ++ " " ++ (⟨p1⟩ : String))) with
          | some pod_r, some pol_r =>
            match checkRegistrationAux oracle pod_r pol_r with
            | none => none
            | some req =>
              if req.matched then none
              else some ⟨false, some genus, some plant⟩
          | _, _ => none
        | _ => none

/-- Embedding of `checkRegistration` (checkRHS.py 99-113). -/
def checkRegistration (oracle : RhsOracle) (fuel : Nat)
    (pod_parent pollen_parent : Option String) : Option RegResult := do
  let pod ← extractName oracle fuel pod_parent
  let pol ← extractName oracle fuel pollen_parent
  checkRegistrationAux oracle pod pol

/-! ## Concrete fixtures used by the claim theorems -/

/-- Decision fields of a `PlantRecord` at their defaults: optional keys
absent and the warning flag clear. -/
def decisionDefaults (r : PlantRecord) : Prop :=
  r.changed = none ∧ r.warning = false ∧ r.warning_desc = none ∧
  r.new_bot_name = none ∧ r.rename = none ∧ r.duplicate = none ∧
  r.accepted = none ∧ r.nat_hyb = none ∧ r.parentage = none ∧
  r.parentage_exists = none ∧ r.possible_hybrid = none ∧
  r.not_nat_hybrid = none

/-- Record A of the target-missing scenario: external id 10. -/
def c1recA : PlantRecord :=
  { generatePlantObject "Taxon a" (some "/plants/view/10/") with
      changed := some true, new_bot_name := some "Taxon c" }

/-- Record B of the target-missing scenario: external id 7. -/
def c1recB : PlantRecord :=
  { generatePlantObject "Taxon b" (some "/plants/view/7/") with
      changed := some true, new_bot_name := some "Taxon c" }

/-- Catalog for the target-missing scenario: both names map to the absent
target Taxon c. -/
def c1dataset : Dataset :=
  [("Taxon a", [("", c1recA)]), ("Taxon b", [("", c1recB)])]

/-- Source record of a merge pair, external id 7. -/
def c2old : PlantRecord :=
  generatePlantObject "Sarracenia alabamensis" (some "/plants/view/7/")

/-- Target record of a merge pair, external id 9. -/
def c2new : PlantRecord :=
  generatePlantObject "Sarracenia rubra" (some "/plants/view/9/")

/-- The merge entry the planner builds for that pair at genusCheck.py
1016: the stored `pids_reversed` flag is true because the source pid 7
precedes the target pid 9. -/
def c2entry : MergeEntry := ⟨c2old, c2new, [], [], true⟩

/-- Collaborators for the Geranium scenario: no COL or NGA matches are
needed, KEW is unused, the parentage check reports an empty field. -/
def c3oracles : Oracles :=
  { colSearch := fun _ => ⟨none, some "No match found in COL"⟩
    ngaSearch := fun _ => none
    kewSearch := fun s =>
      { name := s, status := none, distribution := none, hybrid := false,
        parentage := none }
    checkParentage := fun _ => some false }

/-- The scenario record, fresh from the catalog and reset. -/
def c3record : PlantRecord :=
  resetEntry (generatePlantObject "Geranium x oxonianum" (some "/plants/view/77/"))

/-- Working catalog holding only the scenario record. -/
def c3dataset : Dataset := [("Geranium x oxonianum", [("", c3record)])]

/-- The scenario reference row: accepted, empty hybrid indicator, remarks
without a hybrid keyword. -/
def c3row : RefRow :=
  { status := "accepted", distribution := some "Europe",
    description := "a remark", notho := "" }

/-- Run of the classifier on the Geranium scenario. -/
def c3run : Option (Dataset × List String) :=
  classifyRow c3oracles "Geranium" "Geranium x oxonianum"
    "Geranium x oxonianum" true false false ["Geranium x oxonianum"]
    c3row c3dataset []

/-- What the code actually produces for the scenario record. -/
def c3expected : PlantRecord :=
  { c3record with
      changed := some true, rename := some true,
      new_bot_name := some "Geranium oxonianum",
      warning := true,
      warning_desc := some "COL does not list this as a hybrid",
      accepted := some true }

/-- COL collaborator returning the multiplication-symbol spelling of the
searched hybrid as its accepted name. -/
def c5colSearch : String → ColReply := fun q =>
  if q = "Silene × hampeana" then ⟨some "Silene × hampeana", none⟩
  else ⟨none, some "No match found in COL"⟩

/-- NGA search collaborator with no matches. -/
def c5ngaSearch : String → Option Dataset := fun _ => none

/-- The working record carrying the catalog's `x` hybrid token. -/
def c5record : PlantRecord :=
  generatePlantObject "Silene x hampeana" (some "/plants/view/55/")

/-- Working catalog for the hybrid-symbol lookup. -/
def c5dataset : Dataset := [("Silene x hampeana", [("", c5record)])]

/-- COL collaborator returning a superstring of the searched name. -/
def c5colSuper : String → ColReply := fun _ =>
  ⟨some "Silene hampeana subsp. hampeana", none⟩

/-- Working catalog for the superstring lookup. -/
def c5datasetSuper : Dataset :=
  [("Silene hampeana",
    [("", generatePlantObject "Silene hampeana" (some "/plants/view/56/"))])]

/-- Source-side record of an existing-target pair, external id 7. -/
def c6sel : PlantRecord :=
  generatePlantObject "Drosera anglica" (some "/plants/view/7/")

/-- Target-side record of the same pair, external id 10. -/
def c6cult : PlantRecord :=
  generatePlantObject "Drosera intermedia" (some "/plants/view/10/")

/-- Page-fields collaborator reporting an entry with nothing populated,
exactly the keys `NGA.checkPageFields` provides. -/
def c6emptyFields : PlantRecord → Option (List (String × List String)) :=
  fun _ => some [("cards", []), ("databoxes", []), ("common_names", [])]

/-- Page-fields collaborator reporting a populated card. -/
def c6richFields : PlantRecord → Option (List (String × List String)) :=
  fun _ => some [("cards", ["Botanical names"]), ("databoxes", []), ("common_names", [])]

/-- Network trace for an NGA lookup: the first attempt fails, the second
succeeds. -/
def c7ngaNet : Nat → Option Nat := fun n => if n = 0 then none else some 42

/-- Network trace for a COL lookup: the first attempt fails, the second
would succeed. -/
def c7colNet : Nat → Option ColReply := fun n =>
  if n = 0 then none else some ⟨some "Asplenium ceterach", none⟩

/-- RHS register that never matches a parentage search. -/
def c8unmatched : RhsOracle := fun _ _ _ _ => some ⟨false⟩

/-- RHS register that matches every parentage search. -/
def c8matched : RhsOracle := fun _ _ _ _ => some ⟨true⟩

/-! ## Claim theorems -/

/-- Claim C1.  Evaluation of the survivor selection of the target-missing
branch on the claim's own scenario (group A, B with pids 10 and 7): the
code keeps the record whose pid string "10" compares lexicographically
below "7", so the surviving record is A (id 10), not B (id 7) as the
claim requires; numerically 7 is the lower id. -/
theorem c1_lowest_pid_eval :
    (selectLowestPids c1dataset ["Taxon a", "Taxon b"]).map
      (List.map (fun p => (p.1, p.2.pid))) = some [("", some "10")]
    ∧ c1recA.pid = some "10" ∧ c1recB.pid = some "7"
    ∧ pyStrLt "10" "7" = true
    ∧ 7 < 10 := by
  refine ⟨rfl, rfl, rfl, rfl, by norm_num⟩

/-- Claim C2.  Evaluation of the merge submission on a pair whose source
record (pid 7) predates the target (pid 9): the call site leaves the
stored `pids_reversed` flag unused and passes the empty common-name list
into `reverse_order`, so the submitted step retires pid 7 into survivor
pid 9 — the survivor's id is the larger one although both records
pre-exist.  The N-way first-merge pick then designates the very record
just retired (pid 7) as the `new_target` of every later step. -/
theorem c2_merge_direction_eval :
    proposeMergeCall c2entry (some true) =
      some { survivor_pid := "9", casualty_pid := "7" }
    ∧ c2entry.pids_reversed = true
    ∧ (selectFirstMerge "9" [c2entry]).map
        (fun t => (t.1, t.2.2.map PlantRecord.pid)) = some ("7", some (some "7"))
    ∧ 7 < 9 := by
  refine ⟨rfl, rfl, rfl, by norm_num⟩

/-- Claim C3, counterexample.  On the claim's scenario (working record
"Geranium x oxonianum", reference row accepted with empty hybrid
indicator and keyword-free remarks) the classifier sets the `changed`
flag and leaves `not_nat_hybrid` unset — the opposite of the claimed
`notNaturalHybrid=true` with `changed` unset. -/
theorem c3_scenario_counterexample :
    ((c3run.bind (fun p => lookupCult p.1 "Geranium x oxonianum" "")).map
      (fun r => (r.changed, r.not_nat_hybrid)) = some (some true, none))
    ∧ (nameFields "Geranium x oxonianum").2 = true
    ∧ checkHybStatus c3row.notho c3row.description c3row.distribution =
        (false, false, false) := by
  refine ⟨rfl, rfl, rfl⟩

/-- Claim C3, amended.  On that scenario the record instead takes the
marker-stripping path: `new_bot_name` becomes "Geranium oxonianum" with
`rename` and `changed` set, a W warning "COL does not list this as a
hybrid" is attached, the record is marked accepted, the stripped name is
queued as a rename target, and `not_nat_hybrid` stays unset. -/
theorem c3_scenario_amended :
    c3run = some ([("Geranium x oxonianum", [("", c3expected)])],
      ["Geranium oxonianum"]) := by
  rfl

/-- Claim C4.  The fuzzy-match acceptance test of genusCheck.py 478-482
coincides with the specified predicate — propose only when the candidate
differs and either the ratio exceeds 0.90 or the short-name exception
(ratio above 0.80, positionwise differences below 2, length difference
below 3) applies — and at ratio exactly 0.90 acceptance reduces to that
exception, so without it no match is proposed. -/
theorem c4_fuzzy_threshold (r : ℚ) (cm sn : String) :
    fuzzyAccept r cm sn = fuzzyAcceptSpec r cm sn
    ∧ fuzzyAccept (9/10) cm sn =
        (gender_change (9/10) cm sn && decide (cm ≠ sn)) := by
  constructor
  · simp only [fuzzyAccept, fuzzyAcceptSpec, gender_change, Bool.and_comm,
      Bool.and_assoc]
  · simp only [fuzzyAccept]
    have h : ¬ ((9:ℚ)/10 > 9/10) := lt_irrefl _
    simp [h]

/-- Claim C5.  Evaluation of `checkSynonym` where COL returns exactly the
multiplication-symbol spelling of the searched `x`-token hybrid: the
guard's `or retname != working_name` disjunct admits it, so every record
under the working name receives the ×-spelling as `new_bot_name` with
`changed` set — the two spellings are treated as distinct taxa.  The
superstring case, by contrast, leaves the dataset untouched. -/
theorem c5_hybrid_symbol_eval :
    pyReplace "Silene x hampeana" " x " " × " = "Silene × hampeana"
    ∧ (checkSynonym c5colSearch c5ngaSearch c5dataset "Silene x hampeana"
        "Silene" none none).map (fun res =>
          (res.retname,
           (lookupCult res.dataset "Silene x hampeana" "").map
             (fun r => (r.new_bot_name, r.changed, r.duplicate, r.warning)))) =
      some (some "Silene × hampeana",
        some (some "Silene × hampeana", some true, some false, true))
    ∧ (checkSynonym c5colSuper c5ngaSearch c5datasetSuper "Silene hampeana"
        "Silene" none none).map (fun res => (res.retname, res.dataset)) =
      some (some "Silene hampeana subsp. hampeana", c5datasetSuper) := by
  refine ⟨rfl, rfl, rfl⟩

/-- Claim C6.  Evaluation of the existing-target pair handling on source
pid 7 versus target pid 10: the string comparison makes `pids_reversed`
false, so the page-fields check runs on the numerically lower record
(pid 7) instead of the higher one; a populated card or a failed check
does force the manual flag, but the non-manual path crashes on the
`botanical_names` key that `checkPageFields` never returns. -/
theorem c6_existing_target_eval :
    pyStrLt "7" "10" = false
    ∧ (if pyStrLt "7" "10" then c6cult else c6sel) = c6sel
    ∧ c6sel.pid = some "7" ∧ c6cult.pid = some "10"
    ∧ pairMerge c6sel c6cult c6richFields = some (true, none)
    ∧ pairMerge c6sel c6cult (fun _ => none) = some (true, none)
    ∧ pairMerge c6sel c6cult c6emptyFields = none
    ∧ 7 < 10 := by
  refine ⟨rfl, rfl, rfl, rfl, rfl, rfl, rfl, by norm_num⟩

/-- Claim C7, counterexample.  A network trace whose first attempt fails
and whose second succeeds: the NGA lookup retries and obtains the result,
but the COL lookup returns its error reply without ever consulting the
second attempt — the reference-source lookup is not retried. -/
theorem c7_col_no_retry_counterexample :
    ngaSearch c7ngaNet = some 42
    ∧ colSearchAttempt c7colNet = ⟨none, some "Error retrieving taxon"⟩
    ∧ c7colNet 1 = some ⟨some "Asplenium ceterach", none⟩ := by
  refine ⟨rfl, rfl, rfl⟩

/-- Claim C7, amended.  When the first attempt of a lookup fails
transiently, the NGA lookup is retried exactly once (its result is
exactly the second attempt's), while the COL and KEW lookups abandon the
branch immediately with an error reply or the default result — the run
continues in every case. -/
theorem c7_retry_amended (net : Nat → Option Nat) (cnet : Nat → Option ColReply)
    (knet : Nat → Option KewResult) (synonym : String)
    (h : net 0 = none) (hc : cnet 0 = none) (hk : knet 0 = none) :
    ngaSearch net = net 1
    ∧ colSearchAttempt cnet = ⟨none, some "Error retrieving taxon"⟩
    ∧ kewSearchAttempt knet synonym =
        { name := synonym, status := none, distribution := none,
          hybrid := false, parentage := none } := by
  refine ⟨?_, ?_, ?_⟩
  · simp [ngaSearch, ngaSearchAttempt, ngaSearchRecursed, h]
  · simp [colSearchAttempt, hc]
  · simp [kewSearchAttempt, hk]

/-- Claim C7, witness for the amended theorem at a concrete trace. -/
theorem c7_retry_amended_witness :
    ngaSearch (fun n => if n = 0 then none else some 7) =
      (fun n => if n = 0 then (none : Option Nat) else some 7) 1
    ∧ colSearchAttempt (fun _ => none) = ⟨none, some "Error retrieving taxon"⟩
    ∧ kewSearchAttempt (fun _ => none) "Cymbidium insigne" =
        { name := "Cymbidium insigne", status := none, distribution := none,
          hybrid := false, parentage := none } :=
  c7_retry_amended (fun n => if n = 0 then none else some 7)
    (fun _ => none) (fun _ => none) "Cymbidium insigne" rfl rfl rfl

/-- Claim C8, counterexample.  On the same input string, `extractName`
yields a result under a register that reports no match but crashes (the
boolean subscript `reg['epithet']`) under one that reports a match: the
output is not a function of the input string alone, and the lookup is
performed. -/
theorem c8_register_dependence_counterexample :
    extractName c8unmatched 3 (some "Cym. Alexanderi x Insigne") =
      some ⟨false, some "Cym.", some "Alexanderi x Insigne"⟩
    ∧ extractName c8matched 3 (some "Cym. Alexanderi x Insigne") = none
    ∧ extractName c8unmatched 3 (some "Cym. Alexanderi x Insigne") ≠
        extractName c8matched 3 (some "Cym. Alexanderi x Insigne") := by
  refine ⟨by decide, by decide, by decide⟩

set_option maxHeartbeats 1000000 in
/-- Claim C8, amended.  For an input whose normalised text contains no
hybrid-conjunction token, `extractName` performs no register lookup: its
output is the same structured value for every register oracle, determined
by the input string alone. -/
theorem c8_no_conjunction_pure (o : RhsOracle) (fuel : Nat) (p : String)
    (h : hybScan (normalizePlant p).2.data = []) :
    extractName o (fuel+1) (some p) =
      some ⟨true, some (normalizePlant p).1, some (normalizePlant p).2⟩ := by
  rw [extractName, h]

/-- Claim C8, witness for the amended theorem on a concrete name. -/
theorem c8_no_conjunction_pure_witness :
    hybScan (normalizePlant "Cym. Insigne").2.data = []
    ∧ extractName c8matched 4 (some "Cym. Insigne") =
        some ⟨true, some "Cym.", some "Insigne"⟩ :=
  ⟨rfl, c8_no_conjunction_pure c8matched 3 "Cym. Insigne" rfl⟩

/-- Claim C9.  Every record freshly generated by `_generatePlantObject`
carries all decision fields at their defaults, and the per-name reset
performed before classification writes the default `changed` and
`warning` values. -/
theorem c9_run_start_defaults :
    (∀ name url, decisionDefaults (generatePlantObject name url))
    ∧ (∀ r : PlantRecord,
        (resetEntry r).changed = some false ∧ (resetEntry r).warning = false) := by
  constructor
  · intro name url
    exact ⟨rfl, rfl, rfl, rfl, rfl, rfl, rfl, rfl, rfl, rfl, rfl, rfl⟩
  · intro r
    exact ⟨rfl, rfl⟩

/-- Claim C10.  Whenever the notho field is non-empty after lower-casing
and trimming, `checkHybStatus` reports a hybrid that is not questionable,
regardless of the remarks; a questionable result can only arise with an
empty notho field and a hybrid keyword in the remarks; and on any path
that reports a hybrid, the natural-hybrid flag holds exactly when a
non-empty distribution is present. -/
theorem c10_hyb_status_fields (notho descr : String) (dist : Option String) :
    ((lowerStrip notho).data.length > 0 →
      checkHybStatus notho descr dist = (true, false, distPresent dist))
    ∧ ((checkHybStatus notho descr dist).2.1 = true →
        (lowerStrip notho).data.length = 0
        ∧ (pyContains (lowerStrip descr) "hybrid" ||
           pyContains (lowerStrip descr) "hyrbrid") = true)
    ∧ ((checkHybStatus notho descr dist).1 = true →
        (checkHybStatus notho descr dist).2.2 = distPresent dist) := by
  have e : checkHybStatus notho descr dist =
      (if (lowerStrip notho).data.length > 0 then
        (true, false, distPresent dist)
      else if pyContains (lowerStrip descr) "hybrid" ||
          pyContains (lowerStrip descr) "hyrbrid" then
        (true, pyContains (lowerStrip descr) "?", distPresent dist)
      else (false, false, false)) := rfl
  refine ⟨?_, ?_, ?_⟩
  · intro h
    rw [e, if_pos h]
  · rw [e]
    by_cases h1 : (lowerStrip notho).data.length > 0
    · rw [if_pos h1]
      intro h
      simp at h
    · rw [if_neg h1]
      by_cases h2 : (pyContains (lowerStrip descr) "hybrid" ||
          pyContains (lowerStrip descr) "hyrbrid") = true
      · rw [if_pos h2]
        intro _
        exact ⟨by omega, h2⟩
      · rw [if_neg h2]
        intro h
        simp at h
  · rw [e]
    by_cases h1 : (lowerStrip notho).data.length > 0
    · rw [if_pos h1]
      intro _
      rfl
    · rw [if_neg h1]
      by_cases h2 : (pyContains (lowerStrip descr) "hybrid" ||
          pyContains (lowerStrip descr) "hyrbrid") = true
      · rw [if_pos h2]
        intro _
        rfl
      · rw [if_neg h2]
        intro h
        simp at h

/-- Claim C10, witness at a concrete reference row. -/
theorem c10_hyb_status_fields_witness :
    checkHybStatus " Notho " "plain remarks" (some "Asia") = (true, false, true) :=
  (c10_hyb_status_fields " Notho " "plain remarks" (some "Asia")).1 (by decide)

end NgaDb
